import Mathlib

/-!
# Verification of the spotify-gpt-bridge server

Shallow embedding of `src/server.js` (the concatenated revisions: the first
revision at the top of the file, the latest revision below the separator) and
of the earlier session-based revision in `src/unnamed/part_000`.

The latest revision is the authority for the guarded command dispatcher:
`guard`, `ensureAccessToken`, `sp`, and the route handlers for
`/play`, `/volume`, `/search`, `/playlist/add`.  Upstream HTTP traffic is
modelled by passing the upstream's response (or an oracle from calls to
responses) as an explicit argument; each handler returns the outward HTTP
response together with the list of upstream calls it issued, so that
"no upstream call is made" is a statement about that list.
-/

namespace Bridge

/-- A minimal JSON value, enough for the request/response bodies the server
builds and inspects. -/
inductive Json where
  | obj (fields : List (String × Json))
  | arr (elems : List Json)
  | str (s : String)
  | num (n : Int)
  | bool (b : Bool)
  | null

/-- An upstream call as issued through `sp`: HTTP method, path under the
Spotify API base, query params, optional JSON body. -/
structure SpCall where
  method : String
  path : String
  params : List (String × String)
  data : Option Json

/-- An upstream HTTP response: status code and (decoded) body. -/
structure SpResp where
  status : Nat
  data : Json

/-- The outward HTTP response a route handler produces. -/
structure HttpResponse where
  status : Nat
  body : Json

/-- JavaScript truthiness of a nullable string: `null`/`undefined` and the
empty string are falsy. -/
def jsTruthyStr : Option String → Bool
  | none => false
  | some s => !(s == "")

/-- `req.headers.authorization || ""`: an absent header becomes the empty
string (an empty header is falsy and also yields `""`). -/
def authHeaderValue : Option String → String
  | none => ""
  | some s => s

/-- `guard` from the latest revision of `src/server.js`:
`if (auth === `Bearer ${ACTION_SHARED_SECRET}`) return next();`
`return res.status(401).json({ error: "Unauthorized" });` -/
def guard (secret : String) (authHeader : Option String) : Bool :=
  authHeaderValue authHeader == "Bearer " ++ secret

/-- The 401 body the guard sends on mismatch. -/
def unauthorizedResponse : HttpResponse :=
  ⟨401, Json.obj [("error", Json.str "Unauthorized")]⟩

/-- A guarded route: the handler runs only when the guard allows the request.
The handler yields its response, the upstream API calls it made, and the
number of token-refresh calls it triggered. -/
def runGuarded (secret : String) (authHeader : Option String)
    (handler : Unit → HttpResponse × List SpCall × Nat) :
    HttpResponse × List SpCall × Nat :=
  if guard secret authHeader then handler ()
  else (unauthorizedResponse, [], 0)

/-- The in-memory token state of the latest revision:
`let ACCESS_TOKEN = null; let REFRESH_TOKEN = null; let ACCESS_EXPIRES_AT = 0;`
`access_token`/`refresh_token` are `none` for `null`; `expires_at` is the
epoch instant in milliseconds. -/
structure TokenState where
  access_token : Option String
  refresh_token : Option String
  expires_at : Int

/-- The decoded body of a successful refresh response (`r.data`): the new
access token, `expires_in` in seconds when present, and optionally a new
refresh token (which the latest revision's `ensureAccessToken` never reads). -/
structure RefreshData where
  access_token : String
  expires_in : Option Nat
  refresh_token : Option String

/-- Errors `ensureAccessToken` can raise: no refresh token held, or the
token endpoint answered with a non-2xx status (axios throws). -/
inductive TokenError where
  | notConnected
  | refreshFailed (status : Nat)

/-- `r.data.expires_in || 3600`: JavaScript's `||` falls back on any falsy
value, so both an absent field and `0` yield the default. -/
def jsOrNat (o : Option Nat) (d : Nat) : Nat :=
  match o with
  | none => d
  | some n => if n == 0 then d else n

/-- `ensureAccessToken` from the latest revision.  `now` is `Date.now()` in
milliseconds; `refreshOutcome` is the token endpoint's answer (`.error s`
when the HTTP call fails with status `s`, in which case axios throws).
Returns the access token handed to the caller, the token state after the
call, and the number of refresh network calls performed (0 or 1). -/
def ensureAccessToken (st : TokenState) (now : Int)
    (refreshOutcome : Except Nat RefreshData) :
    Except TokenError (String × TokenState × Nat) :=
  if jsTruthyStr st.access_token ∧ now < st.expires_at - 10000 then
    .ok (st.access_token.getD "", st, 0)
  else if !jsTruthyStr st.refresh_token then
    .error .notConnected
  else
    match refreshOutcome with
    | .error s => .error (.refreshFailed s)
    | .ok d =>
        .ok (d.access_token,
             { access_token := some d.access_token,
               refresh_token := st.refresh_token,
               expires_at := now + (jsOrNat d.expires_in 3600 : Int) * 1000 },
             1)

/-- `sp` from the latest revision: obtain a token via `ensureAccessToken`,
then issue the call with `validateStatus: () => true` and return the axios
response as-is — no status-dependent transformation of the body. -/
def sp (st : TokenState) (now : Int) (refreshOutcome : Except Nat RefreshData)
    (upstream : SpCall → SpResp) (call : SpCall) :
    Except TokenError (SpResp × TokenState × Nat) :=
  match ensureAccessToken st now refreshOutcome with
  | .error e => .error e
  | .ok (_, st2, k) => .ok (upstream call, st2, k)

/-- Errors of the first revision's token path: `No refresh token yet` and
`Refresh failed`. -/
inductive SpFirstError where
  | noRefreshToken
  | refreshFailed

/-- `sp` from the first revision (top of `src/server.js`): refresh a token
via `tokenFromRefresh` (`REFRESH_TOKEN` starts as `""`, which is falsy),
issue the call, and normalize a 204 to an empty object:
`if (r.status === 204) return {}; return r.json();` -/
def spFirst (refreshToken : String) (refreshOk : Bool)
    (upstream : SpCall → SpResp) (call : SpCall) : Except SpFirstError Json :=
  if refreshToken == "" then .error .noRefreshToken
  else if refreshOk = false then .error .refreshFailed
  else
    let r := upstream call
    if r.status == 204 then .ok (Json.obj []) else .ok r.data

/-- The `/me/player/play` control call the `/play` handler issues. -/
def playCall : SpCall := ⟨"put", "/me/player/play", [], none⟩

/-- The `{ ok: true }` success body shared by the control routes. -/
def okTrueResponse : HttpResponse := ⟨200, Json.obj [("ok", Json.bool true)]⟩

/-- `POST /play` handler of the latest revision: one `sp` call, then
`r.status < 300 ? res.json({ok:true}) : res.status(r.status).json(r.data)`.
The returned list is every upstream call the handler issued. -/
def playHandler (upstream : SpCall → SpResp) : HttpResponse × List SpCall :=
  let r := upstream playCall
  (if r.status < 300 then okTrueResponse else ⟨r.status, r.data⟩, [playCall])

/-- `Math.max(0, Math.min(100, x))`. -/
def clampVolume (x : Int) : Int := max 0 (min 100 x)

/-- The `/me/player/volume` call with its `volume_percent` query param. -/
def volumeCall (v : Int) : SpCall :=
  ⟨"put", "/me/player/volume", [("volume_percent", toString v)], none⟩

/-- `POST /volume` handler of the latest revision:
`const v = Math.max(0, Math.min(100, Number(req.body?.volume ?? 50)));`
then one `sp` call with `params: { volume_percent: v }`.  `volume` is the
request body's `volume` field (`none` when the field or the body is absent). -/
def volumeHandler (volume : Option Int) (upstream : SpCall → SpResp) :
    HttpResponse × List SpCall :=
  let v := clampVolume (volume.getD 50)
  let r := upstream (volumeCall v)
  (if r.status < 300 then okTrueResponse else ⟨r.status, r.data⟩, [volumeCall v])

/-- The `volume_percent` value the `/volume` handler sent upstream, read off
the handler's call trace. -/
def sentVolumeParam (volume : Option Int) (upstream : SpCall → SpResp) :
    Option String :=
  match (volumeHandler volume upstream).2 with
  | [c] => ((c.params.find? (fun kv => kv.1 == "volume_percent")).map (fun kv => kv.2))
  | _ => none

/-- An artist object as consumed by the search handler (`a.name`). -/
structure Artist where
  name : String

/-- An album object as consumed by the search handler (`t.album?.name`). -/
structure Album where
  name : String

/-- A track object of the upstream search response, with the fields the
handler reads. `album` is optional (`t.album?.name`). -/
structure Track where
  id : String
  uri : String
  name : String
  artists : List Artist
  album : Option Album

/-- The normalized track summary `/search` answers with:
`{ id, uri, name, artists: t.artists.map(a => a.name), album: t.album?.name }`
(a JSON field whose value is `undefined` is dropped on serialization). -/
def trackSummaryJson (t : Track) : Json :=
  Json.obj
    ([("id", Json.str t.id), ("uri", Json.str t.uri), ("name", Json.str t.name),
      ("artists", Json.arr (t.artists.map (fun a => Json.str a.name)))]
     ++ (match t.album with
         | some a => [("album", Json.str a.name)]
         | none => []))

/-- The upstream search call: `params: { q, type: "track", limit: 1 }`. -/
def searchTrackCall (q : String) : SpCall :=
  ⟨"get", "/search", [("q", q), ("type", "track"), ("limit", "1")], none⟩

/-- What the upstream answers a search with: the HTTP status, the raw body
(used verbatim for the ≥300 passthrough), and the decoded
`r.data.tracks.items`. -/
structure SearchUpstream where
  status : Nat
  errBody : Json
  items : List Track

/-- The 400 body for a missing `q`. -/
def missingQResponse : HttpResponse :=
  ⟨400, Json.obj [("error", Json.str "Missing query param \x27q\x27.")]⟩

/-- The 404 body when the search finds no track. -/
def noTrackResponse : HttpResponse :=
  ⟨404, Json.obj [("error", Json.str "No track found.")]⟩

/-- `GET /search` handler of the latest revision.  `q` is the query param
(`none` when absent; `!q` also catches the empty string). -/
def searchHandler (q : Option String) (up : SearchUpstream) :
    HttpResponse × List SpCall :=
  let qv := match q with | none => "" | some s => s
  if qv == "" then (missingQResponse, [])
  else
    if up.status ≥ 300 then (⟨up.status, up.errBody⟩, [searchTrackCall qv])
    else
      match up.items with
      | [] => (noTrackResponse, [searchTrackCall qv])
      | t :: _ => (⟨200, trackSummaryJson t⟩, [searchTrackCall qv])

/-- A playlist object with the fields the resolution code reads. -/
structure Playlist where
  id : String
  name : String
deriving DecidableEq

/-- JavaScript's `.toLowerCase()`: lower-case every character (structural
definition over the string's characters, so it evaluates in the kernel). -/
def jsToLowerCase (s : String) : String := ⟨s.data.map Char.toLower⟩

/-- The match predicate of `findPlaylistIdByName`:
`p.name.toLowerCase() === name.toLowerCase()`. -/
def playlistNameMatches (target : String) (p : Playlist) : Bool :=
  jsToLowerCase p.name == jsToLowerCase target

/-- One page request of the pagination loop:
`sp("get", `/users/.../playlists`, { params: { limit: 50, offset } })`. -/
def listPlaylistsCall (uid : String) (offset : Nat) : SpCall :=
  ⟨"get", "/users/" ++ uid ++ "/playlists",
   [("limit", "50"), ("offset", toString offset)], none⟩

/-- The pagination loop of `findPlaylistIdByName`, run against the account's
playlists `pls` (the server answers each page with the next 50 of them):
scan the current 50-item page for a case-insensitive name match, return its
id when found, stop with `null` when a short page shows the listing is
exhausted, otherwise advance `offset` by 50.  Also returns the page calls
issued. -/
def findPlaylistIdByName (uid name : String) (pls : List Playlist)
    (offset : Nat) : Option String × List SpCall :=
  match (pls.take 50).find? (playlistNameMatches name) with
  | some hit => (some hit.id, [listPlaylistsCall uid offset])
  | none =>
      if h : (pls.take 50).length < 50 then (none, [listPlaylistsCall uid offset])
      else
        let rest := findPlaylistIdByName uid name (pls.drop 50) (offset + 50)
        (rest.1, listPlaylistsCall uid offset :: rest.2)
termination_by pls.length
decreasing_by
  rw [List.length_drop]
  rw [List.length_take] at h
  omega

/-- The request body of `POST /playlist/add`
(`{ playlistName, query?, uri?, createIfMissing? }`, every field optional;
`createIfMissing` defaults to `true` only when absent). -/
structure AddBody where
  playlistName : Option String
  query : Option String
  uri : Option String
  createIfMissing : Option Bool

/-- The upstream's answers to the calls `/playlist/add` can make: the
profile call's status and user id, the decoded search items, the playlist
listing status and the account's playlists, the create call's status and
the created playlist's id, and the add call's status and raw body. -/
structure PlaylistAddUpstream where
  meStatus : Nat
  userId : String
  searchItems : List Track
  listStatus : Nat
  playlists : List Playlist
  createStatus : Nat
  createdId : String
  addStatus : Nat
  addRespBody : Json

/-- `sp("get", "/me")`, issued by `getUserId`. -/
def meCall : SpCall := ⟨"get", "/me", [], none⟩

/-- The create call of `createPlaylist(name, description = "Created by GPT
Bridge", isPublic = false)`. -/
def createPlaylistCall (uid name description : String) (isPublic : Bool) :
    SpCall :=
  ⟨"post", "/users/" ++ uid ++ "/playlists", [],
   some (Json.obj [("name", Json.str name), ("description", Json.str description),
                   ("public", Json.bool isPublic)])⟩

/-- The add call `sp("post", `/playlists/.../tracks`, { data: { uris: [trackUri] } })`. -/
def addTracksCall (pid uri : String) : SpCall :=
  ⟨"post", "/playlists/" ++ pid ++ "/tracks", [],
   some (Json.obj [("uris", Json.arr [Json.str uri])])⟩

/-- 400 body for a missing `playlistName`. -/
def playlistNameRequiredResponse : HttpResponse :=
  ⟨400, Json.obj [("error", Json.str "playlistName is required")]⟩

/-- 404 body when a `query` resolves to no track. -/
def trackNotFoundResponse : HttpResponse :=
  ⟨404, Json.obj [("error", Json.str "Track not found")]⟩

/-- 400 body when neither `uri` nor `query` yields a track URI. -/
def provideUriOrQueryResponse : HttpResponse :=
  ⟨400, Json.obj [("error", Json.str "Provide \x27uri\x27 or \x27query\x27.")]⟩

/-- 404 body when resolution fails and creation is disabled. -/
def playlistNotFoundResponse : HttpResponse :=
  ⟨404, Json.obj [("error", Json.str "Playlist not found")]⟩

/-- The catch-all 500 of the handler, carrying the thrown message. -/
def serverErrorResponse (msg : String) : HttpResponse :=
  ⟨500, Json.obj [("error", Json.str msg)]⟩

/-- The final step of `/playlist/add`: POST the track to the playlist and
either relay a non-2xx status/body or answer
`{ ok: true, playlistId, added: trackUri }`. -/
def addTrackStep (pid uri : String) (up : PlaylistAddUpstream)
    (calls : List SpCall) : HttpResponse × List SpCall :=
  if up.addStatus ≥ 300 then
    (⟨up.addStatus, up.addRespBody⟩, calls ++ [addTracksCall pid uri])
  else
    (⟨200, Json.obj [("ok", Json.bool true), ("playlistId", Json.str pid),
                     ("added", Json.str uri)]⟩,
     calls ++ [addTracksCall pid uri])

/-- The playlist-resolution part of `/playlist/add`, once a track URI is in
hand: `findPlaylistIdByName` (a `getUserId` profile call, then the
pagination loop; either throws into the catch on a ≥300 status), then
`if (!playlistId && createIfMissing) playlistId = await createPlaylist(name);`
`if (!playlistId) return 404;` and finally the add call. -/
def resolvePlaylistAndAdd (name uri : String) (createIfMissing : Bool)
    (up : PlaylistAddUpstream) (calls : List SpCall) :
    HttpResponse × List SpCall :=
  if up.meStatus ≥ 300 then
    (serverErrorResponse "Failed to get user profile", calls ++ [meCall])
  else if up.listStatus ≥ 300 then
    (serverErrorResponse "Failed to list playlists",
     calls ++ [meCall, listPlaylistsCall up.userId 0])
  else
    let found := findPlaylistIdByName up.userId name up.playlists 0
    let calls1 := calls ++ [meCall] ++ found.2
    if !jsTruthyStr found.1 && createIfMissing then
      if up.createStatus ≥ 300 then
        (serverErrorResponse "Failed to create playlist",
         calls1 ++ [meCall, createPlaylistCall up.userId name "Created by GPT Bridge" false])
      else if up.createdId == "" then
        (playlistNotFoundResponse,
         calls1 ++ [meCall, createPlaylistCall up.userId name "Created by GPT Bridge" false])
      else
        addTrackStep up.createdId uri up
          (calls1 ++ [meCall, createPlaylistCall up.userId name "Created by GPT Bridge" false])
    else if !jsTruthyStr found.1 then
      (playlistNotFoundResponse, calls1)
    else
      addTrackStep (found.1.getD "") uri up calls1

/-- `POST /playlist/add` handler of the latest revision: validate
`playlistName`, resolve the track URI (`uri` wins; otherwise a limit-1 track
search on `query`, 404 when it yields nothing, 400 when neither is usable),
then resolve the playlist and add the track. -/
def playlistAddHandler (body : AddBody) (up : PlaylistAddUpstream) :
    HttpResponse × List SpCall :=
  if !jsTruthyStr body.playlistName then (playlistNameRequiredResponse, [])
  else
    let name := body.playlistName.getD ""
    let createIfMissing := body.createIfMissing.getD true
    if !jsTruthyStr body.uri && jsTruthyStr body.query then
      match up.searchItems with
      | [] => (trackNotFoundResponse, [searchTrackCall (body.query.getD "")])
      | item :: _ =>
          if item.uri == "" then
            (provideUriOrQueryResponse, [searchTrackCall (body.query.getD "")])
          else
            resolvePlaylistAndAdd name item.uri createIfMissing up
              [searchTrackCall (body.query.getD "")]
    else
      if !jsTruthyStr body.uri then (provideUriOrQueryResponse, [])
      else resolvePlaylistAndAdd name (body.uri.getD "") createIfMissing up []

/-- C1: any request whose Authorization header differs from
`"Bearer " ++ secret` is answered 401 with no upstream call and no token
refresh, on every guarded route (the handler is arbitrary). -/
theorem guard_mismatch_unauthorized (secret : String) (authHeader : Option String)
    (handler : Unit → HttpResponse × List SpCall × Nat)
    (h : authHeaderValue authHeader ≠ "Bearer " ++ secret) :
    runGuarded secret authHeader handler = (unauthorizedResponse, [], 0) := by
  simp only [runGuarded, guard]
  rw [if_neg]
  simp [h]

/-- Witness for C1: a concrete mismatching request (absent header, nonempty
secret) is rejected even though the handler would have called upstream. -/
theorem guard_mismatch_unauthorized_witness :
    runGuarded "s3cr3t" none
      (fun _ => (⟨200, Json.obj []⟩, [⟨"put", "/me/player/play", [], none⟩], 1))
      = (unauthorizedResponse, [], 0) :=
  guard_mismatch_unauthorized "s3cr3t" none _ (by decide)

/-- Counterexample to C4: with an empty configured secret, a request with an
absent Authorization header (and one with an empty header) is NOT allowed
through — the guard compares against the string `"Bearer "` and denies. -/
theorem empty_secret_empty_header_denied :
    guard "" none = false ∧ guard "" (some "") = false := by decide

/-- C4 (amended): with an empty configured secret, the guard admits exactly
the requests whose Authorization header is the literal string `"Bearer "`
(the scheme word and trailing space with an empty credential); empty or
absent headers still mismatch and are rejected with 401. -/
theorem empty_secret_guard_behaviour :
    guard "" (some "Bearer ") = true
    ∧ runGuarded "" none (fun _ => (⟨200, Json.obj []⟩, [], 0))
        = (unauthorizedResponse, [], 0)
    ∧ runGuarded "" (some "") (fun _ => (⟨200, Json.obj []⟩, [], 0))
        = (unauthorizedResponse, [], 0) :=
  ⟨rfl, rfl, rfl⟩

/-- C2: when a cached access token exists and `now < expires_at - 10s`, it is
returned unchanged with no refresh call and unchanged state; otherwise, when
a refresh token is held and the token endpoint answers successfully, exactly
one refresh call is made and access token and expiry are both updated, the
expiry to `now + expires_in` seconds (3600 when the provider omits it, via
`jsOrNat`). -/
theorem ensureAccessToken_cache_or_refresh (st : TokenState) (now : Int)
    (out : Except Nat RefreshData) :
    (∀ t, st.access_token = some t → t ≠ "" → now < st.expires_at - 10000 →
      ensureAccessToken st now out = .ok (t, st, 0))
    ∧ (¬(jsTruthyStr st.access_token = true ∧ now < st.expires_at - 10000) →
      ∀ rt, st.refresh_token = some rt → rt ≠ "" →
      ∀ d, out = .ok d →
        ensureAccessToken st now out =
          .ok (d.access_token,
               { access_token := some d.access_token,
                 refresh_token := st.refresh_token,
                 expires_at := now + (jsOrNat d.expires_in 3600 : Int) * 1000 },
               1)) := by
  constructor
  · intro t ht hne hlt
    simp [ensureAccessToken, ht, jsTruthyStr, hne, hlt]
  · intro hnot rt hrt hrtne d hd
    subst hd
    rw [ensureAccessToken, if_neg hnot]
    simp [jsTruthyStr, hrt, hrtne]

/-- Witness for C2: a fresh cached token is returned with zero refresh calls;
an absent cached token triggers exactly one refresh that updates token and
expiry. -/
theorem ensureAccessToken_cache_or_refresh_witness :
    ensureAccessToken ⟨some "tokA", some "rt", 100000⟩ 50000 (.ok ⟨"n", none, none⟩)
        = .ok ("tokA", ⟨some "tokA", some "rt", 100000⟩, 0)
    ∧ ensureAccessToken ⟨none, some "rt", 0⟩ 50000 (.ok ⟨"newTok", some 7200, none⟩)
        = .ok ("newTok", ⟨some "newTok", some "rt", 50000 + 7200 * 1000⟩, 1) := by
  constructor
  · exact (ensureAccessToken_cache_or_refresh ⟨some "tokA", some "rt", 100000⟩ 50000
      (.ok ⟨"n", none, none⟩)).1 "tokA" rfl (by decide) (by decide)
  · exact (ensureAccessToken_cache_or_refresh ⟨none, some "rt", 0⟩ 50000
      (.ok ⟨"newTok", some 7200, none⟩)).2 (by decide) "rt" rfl (by decide) _ rfl

/-- Counterexample to C8: a successful refresh whose response carries a new
refresh token `"newRT"` leaves the stored refresh token at `"oldRT"` — the
latest revision's `ensureAccessToken` never reads `r.data.refresh_token`,
so the stored value is not replaced by the new one. -/
theorem refresh_token_not_replaced_cex :
    ensureAccessToken ⟨none, some "oldRT", 0⟩ 0 (.ok ⟨"a", some 60, some "newRT"⟩)
      = .ok ("a", ⟨some "a", some "oldRT", 0 + 60 * 1000⟩, 1)
    ∧ "oldRT" ≠ "newRT" := by
  refine ⟨rfl, by decide⟩

/-- C8 (amended): on every successful `ensureAccessToken` call only the
access token and the expiry instant can change; the stored refresh token is
always preserved, even when the provider's response returns a new refresh
token (that value is ignored). -/
theorem refresh_preserves_refresh_token (st : TokenState) (now : Int)
    (out : Except Nat RefreshData) (t : String) (st2 : TokenState) (k : Nat)
    (h : ensureAccessToken st now out = .ok (t, st2, k)) :
    st2.refresh_token = st.refresh_token := by
  unfold ensureAccessToken at h
  split at h
  · simp only [Except.ok.injEq, Prod.mk.injEq] at h
    rw [← h.2.1]
  · split at h
    · simp at h
    · cases out with
      | error s => simp at h
      | ok d =>
          simp only [Except.ok.injEq, Prod.mk.injEq] at h
          rw [← h.2.1]

/-- Witness for C8 (amended): applied at a concrete refresh whose response
offers a new refresh token. -/
theorem refresh_preserves_refresh_token_witness :
    (TokenState.mk (some "a") (some "oldRT") (0 + 60 * 1000)).refresh_token
      = (TokenState.mk none (some "oldRT") 0).refresh_token :=
  refresh_preserves_refresh_token ⟨none, some "oldRT", 0⟩ 0
    (.ok ⟨"a", some 60, some "newRT"⟩) "a" _ 1 rfl

/-- Counterexample to C9: the latest revision's `sp` hands a 204 upstream
response to the dispatcher unchanged — the body is whatever axios decoded
(the empty string), not normalized to an empty object. -/
theorem sp_204_not_normalized_cex :
    sp ⟨some "tok", some "rt", 10000000⟩ 0 (.error 500)
        (fun _ => ⟨204, Json.str ""⟩) ⟨"put", "/me/player/pause", [], none⟩
      = .ok (⟨204, Json.str ""⟩, ⟨some "tok", some "rt", 10000000⟩, 0)
    ∧ Json.str "" ≠ Json.obj [] :=
  ⟨rfl, fun h => Json.noConfusion h⟩

/-- C9 (amended): only the first revision's `sp` normalizes a 204 No Content
to an empty object; the latest revision's `sp` returns the upstream response
to the dispatcher unchanged, with no 204 normalization. -/
theorem sp_204_normalization_by_revision (refreshToken : String)
    (refreshOk : Bool) (upstream : SpCall → SpResp) (call : SpCall)
    (st : TokenState) (now : Int) (out : Except Nat RefreshData)
    (r : SpResp) (st2 : TokenState) (k : Nat) :
    (refreshToken ≠ "" → refreshOk = true → (upstream call).status = 204 →
      spFirst refreshToken refreshOk upstream call = .ok (Json.obj []))
    ∧ (sp st now out upstream call = .ok (r, st2, k) → r = upstream call) := by
  constructor
  · intro h1 h2 h3
    simp [spFirst, h1, h2, h3]
  · intro h
    unfold sp at h
    cases hE : ensureAccessToken st now out with
    | error e => rw [hE] at h; simp at h
    | ok v =>
        rw [hE] at h
        simp only [Except.ok.injEq, Prod.mk.injEq] at h
        rw [← h.1]

/-- Witness for C9 (amended): the first revision normalizes a concrete 204
to `{}`; the latest revision hands the same 204 response through unchanged. -/
theorem sp_204_normalization_by_revision_witness :
    spFirst "rt" true (fun _ => ⟨204, Json.str ""⟩) ⟨"put", "/me/player/pause", [], none⟩
        = .ok (Json.obj [])
    ∧ SpResp.mk 204 (Json.str "")
        = (fun _ => SpResp.mk 204 (Json.str "")) (SpCall.mk "put" "/me/player/pause" [] none) := by
  constructor
  · exact (sp_204_normalization_by_revision "rt" true (fun _ => ⟨204, Json.str ""⟩)
      ⟨"put", "/me/player/pause", [], none⟩ ⟨some "tok", some "rt", 10000000⟩ 0
      (.error 500) ⟨204, Json.str ""⟩ ⟨some "tok", some "rt", 10000000⟩ 0).1
      (by decide) rfl rfl
  · exact (sp_204_normalization_by_revision "rt" true (fun _ => ⟨204, Json.str ""⟩)
      ⟨"put", "/me/player/pause", [], none⟩ ⟨some "tok", some "rt", 10000000⟩ 0
      (.error 500) ⟨204, Json.str ""⟩ ⟨some "tok", some "rt", 10000000⟩ 0).2 rfl

/-- Counterexample to C3: on an upstream answering 404 (Spotify's
no-active-device answer), the `/play` handler's entire upstream trace is the
single play control call — no player-state read, no device listing, no
transfer precede it — and the outward status is the passthrough 404, not the
claimed 409 NoDevice. -/
theorem play_no_device_resolution_cex :
    playHandler (fun _ => ⟨404, Json.obj [("error", Json.str "NO_ACTIVE_DEVICE")]⟩)
      = (⟨404, Json.obj [("error", Json.str "NO_ACTIVE_DEVICE")]⟩,
         [⟨"put", "/me/player/play", [], none⟩])
    ∧ (404 : Nat) ≠ 409 :=
  ⟨rfl, by decide⟩

/-- C3 (amended): `/play` and `/volume` issue their control call directly as
the only upstream call — no device is resolved beforehand, no transfer call
is made, and there is no NoDevice/409 mapping: a non-2xx upstream status is
relayed outward unchanged together with its body. -/
theorem play_volume_direct_control (upstream : SpCall → SpResp)
    (volume : Option Int) :
    (playHandler upstream).2 = [playCall]
    ∧ (volumeHandler volume upstream).2 = [volumeCall (clampVolume (volume.getD 50))]
    ∧ (300 ≤ (upstream playCall).status →
        (playHandler upstream).1
          = ⟨(upstream playCall).status, (upstream playCall).data⟩)
    ∧ (300 ≤ (upstream (volumeCall (clampVolume (volume.getD 50)))).status →
        (volumeHandler volume upstream).1
          = ⟨(upstream (volumeCall (clampVolume (volume.getD 50)))).status,
             (upstream (volumeCall (clampVolume (volume.getD 50)))).data⟩) := by
  refine ⟨rfl, rfl, ?_, ?_⟩
  · intro h
    simp only [playHandler]
    rw [if_neg (by omega)]
  · intro h
    simp only [volumeHandler]
    rw [if_neg (by omega)]

/-- Witness for C3 (amended): a concrete 404 upstream is relayed unchanged
by `/play`, whose trace is exactly the control call. -/
theorem play_volume_direct_control_witness :
    (playHandler (fun _ => ⟨404, Json.str "nad"⟩)).2 = [playCall]
    ∧ (playHandler (fun _ => ⟨404, Json.str "nad"⟩)).1 = ⟨404, Json.str "nad"⟩ := by
  constructor
  · exact (play_volume_direct_control (fun _ => ⟨404, Json.str "nad"⟩) none).1
  · exact (play_volume_direct_control (fun _ => ⟨404, Json.str "nad"⟩) none).2.2.1
      (by decide)

/-- C5: the `volume_percent` value `/volume` sends upstream is always the
input clamped to `[0, 100]` — in particular 150 is sent as 100 and −20 as
0 — and it always lies within those bounds. -/
theorem volume_always_clamped (v : Int) (upstream : SpCall → SpResp) :
    sentVolumeParam (some v) upstream = some (toString (max 0 (min 100 v)))
    ∧ sentVolumeParam (some 150) upstream = some "100"
    ∧ sentVolumeParam (some (-20)) upstream = some "0"
    ∧ 0 ≤ clampVolume v ∧ clampVolume v ≤ 100 := by
  refine ⟨rfl, rfl, rfl, ?_, ?_⟩
  · simp [clampVolume]
  · simp [clampVolume]

/-- C10: a `/volume` request whose body omits the `volume` field (or has no
body) sends the default 50 upstream as `volume_percent`. -/
theorem volume_default_50 (upstream : SpCall → SpResp) :
    sentVolumeParam none upstream = some "50" := rfl

/-- C6: `/search` with an absent or empty `q` answers 400 with no upstream
call; with a nonempty `q` it issues exactly one track search with limit 1
and answers 404 when zero tracks match, or the normalized summary
(id, uri, name, artist names, album name) of the single best match. -/
theorem searchHandler_spec (q : Option String) (up : SearchUpstream)
    (s : String) :
    ((q = none ∨ q = some "") → searchHandler q up = (missingQResponse, []))
    ∧ (q = some s → s ≠ "" →
        (searchHandler q up).2 = [searchTrackCall s]
        ∧ (up.status < 300 → up.items = [] →
            (searchHandler q up).1 = noTrackResponse)
        ∧ (∀ t ts, up.status < 300 → up.items = t :: ts →
            (searchHandler q up).1 = ⟨200, trackSummaryJson t⟩)) := by
  constructor
  · rintro (rfl | rfl) <;> rfl
  · rintro rfl hs
    refine ⟨?_, ?_, ?_⟩
    · simp only [searchHandler]
      rw [if_neg (by simpa using hs)]
      split
      · rfl
      · cases up.items <;> rfl
    · intro hlt hnil
      simp only [searchHandler]
      rw [if_neg (by simpa using hs), if_neg (by omega), hnil]
    · intro t ts hlt hcons
      simp only [searchHandler]
      rw [if_neg (by simpa using hs), if_neg (by omega), hcons]

/-- Witness for C6: concrete instances — missing and empty `q` give 400 with
an empty trace; a concrete nonempty query against one upstream with no items
gives 404 and against one with a single track gives its summary, each with
exactly the limit-1 search call as the trace. -/
theorem searchHandler_spec_witness :
    searchHandler none ⟨200, Json.null, []⟩ = (missingQResponse, [])
    ∧ searchHandler (some "") ⟨200, Json.null, []⟩ = (missingQResponse, [])
    ∧ (searchHandler (some "hey jude") ⟨200, Json.null, []⟩).1 = noTrackResponse
    ∧ (searchHandler (some "hey jude") ⟨200, Json.null, []⟩).2
        = [searchTrackCall "hey jude"]
    ∧ (searchHandler (some "hey jude")
        ⟨200, Json.null, [⟨"i1", "spotify:track:i1", "Hey Jude",
                           [⟨"The Beatles"⟩], some ⟨"Past Masters"⟩⟩]⟩).1
        = ⟨200, trackSummaryJson ⟨"i1", "spotify:track:i1", "Hey Jude",
                                  [⟨"The Beatles"⟩], some ⟨"Past Masters"⟩⟩⟩ := by
  refine ⟨?_, ?_, ?_, ?_, ?_⟩
  · exact (searchHandler_spec none ⟨200, Json.null, []⟩ "x").1 (Or.inl rfl)
  · exact (searchHandler_spec (some "") ⟨200, Json.null, []⟩ "x").1 (Or.inr rfl)
  · exact ((searchHandler_spec (some "hey jude") ⟨200, Json.null, []⟩ "hey jude").2
      rfl (by decide)).2.1 (by decide) rfl
  · exact ((searchHandler_spec (some "hey jude") ⟨200, Json.null, []⟩ "hey jude").2
      rfl (by decide)).1
  · exact ((searchHandler_spec (some "hey jude")
      ⟨200, Json.null, [⟨"i1", "spotify:track:i1", "Hey Jude",
                         [⟨"The Beatles"⟩], some ⟨"Past Masters"⟩⟩]⟩ "hey jude").2
      rfl (by decide)).2.2 _ _ (by decide) rfl

/-- The pagination loop of `findPlaylistIdByName` computes the first
case-insensitive name match over the whole account listing: scanning pages
of 50 until a short page is equivalent to one `find?` over the full list. -/
theorem findPlaylistIdByName_fst (uid name : String) (pls : List Playlist)
    (offset : Nat) :
    (findPlaylistIdByName uid name pls offset).1
      = (pls.find? (playlistNameMatches name)).map Playlist.id := by
  rw [findPlaylistIdByName]
  cases hf : (pls.take 50).find? (playlistNameMatches name) with
  | some hit =>
      simp only [hf]
      have h2 : pls.find? (playlistNameMatches name) = some hit := by
        conv_lhs => rw [← List.take_append_drop 50 pls]
        rw [List.find?_append, hf]
        rfl
      rw [h2]
      rfl
  | none =>
      simp only [hf]
      split
      next h =>
        have hlen : pls.length ≤ 50 := by
          rw [List.length_take] at h
          omega
        rw [List.take_of_length_le hlen] at hf
        rw [hf]
        rfl
      next h =>
        show (findPlaylistIdByName uid name (pls.drop 50) (offset + 50)).1
          = (pls.find? (playlistNameMatches name)).map Playlist.id
        have h2 : pls.find? (playlistNameMatches name)
            = (pls.drop 50).find? (playlistNameMatches name) := by
          conv_lhs => rw [← List.take_append_drop 50 pls]
          rw [List.find?_append, hf]
          rfl
        rw [h2]
        exact findPlaylistIdByName_fst uid name (pls.drop 50) (offset + 50)
termination_by pls.length
decreasing_by
  simp only [List.length_drop, List.length_take] at *
  omega

/-- C7: `/playlist/add` resolves the playlist by case-insensitive exact name
match over the account's playlists, paginated 50 at a time until exhausted
(the loop equals one `find?` over the full listing); when no playlist
matches and `createIfMissing` (default `true`) holds, a playlist with the
requested name is created and used; when no playlist matches and creation
is disabled, the handler answers 404 Playlist not found. -/
theorem playlistAdd_resolution (uid pname uri : String) (pls : List Playlist)
    (offset : Nat) (body : AddBody) (up : PlaylistAddUpstream)
    (hname : body.playlistName = some pname) (hpn : pname ≠ "")
    (huri : body.uri = some uri) (hu : uri ≠ "")
    (hme : up.meStatus < 300) (hlist : up.listStatus < 300) :
    (findPlaylistIdByName uid pname pls offset).1
      = (pls.find? (playlistNameMatches pname)).map Playlist.id
    ∧ (up.playlists.find? (playlistNameMatches pname) = none →
        body.createIfMissing.getD true = true →
        createPlaylistCall up.userId pname "Created by GPT Bridge" false
            ∈ (playlistAddHandler body up).2
        ∧ (up.createStatus < 300 → up.createdId ≠ "" → up.addStatus < 300 →
            (playlistAddHandler body up).1
              = ⟨200, Json.obj [("ok", Json.bool true),
                                ("playlistId", Json.str up.createdId),
                                ("added", Json.str uri)]⟩))
    ∧ (up.playlists.find? (playlistNameMatches pname) = none →
        body.createIfMissing = some false →
        playlistAddHandler body up
          = (playlistNotFoundResponse,
             [meCall] ++ (findPlaylistIdByName up.userId pname up.playlists 0).2)) := by
  have hfound : ∀ hfind : up.playlists.find? (playlistNameMatches pname) = none,
      (findPlaylistIdByName up.userId pname up.playlists 0).1 = none := by
    intro hfind
    rw [findPlaylistIdByName_fst, hfind]
    rfl
  have hstep : playlistAddHandler body up
      = resolvePlaylistAndAdd pname uri (body.createIfMissing.getD true) up [] := by
    simp [playlistAddHandler, hname, huri, jsTruthyStr, hpn, hu]
  have hA : ¬ (up.meStatus ≥ 300) := by omega
  have hB : ¬ (up.listStatus ≥ 300) := by omega
  refine ⟨findPlaylistIdByName_fst uid pname pls offset, ?_, ?_⟩
  · intro hfind hcim
    rw [hstep, hcim]
    constructor
    · by_cases hc : up.createStatus ≥ 300
      · simp [resolvePlaylistAndAdd, hfound hfind, hA, hB, hc, jsTruthyStr]
      · by_cases hid : up.createdId == ""
        · simp [resolvePlaylistAndAdd, hfound hfind, hA, hB, hc, hid, jsTruthyStr]
        · by_cases ha : up.addStatus ≥ 300 <;>
            simp [resolvePlaylistAndAdd, hfound hfind, hA, hB, hc, hid, ha,
                  jsTruthyStr, addTrackStep]
    · intro hc hid ha
      have hC : ¬ (up.createStatus ≥ 300) := by omega
      have hD : ¬ (up.addStatus ≥ 300) := by omega
      have hE : (up.createdId == "") = false := by simpa using hid
      simp [resolvePlaylistAndAdd, hfound hfind, hA, hB, hC, hD, hE,
            jsTruthyStr, addTrackStep]
  · intro hfind hcim
    rw [hstep, hcim]
    simp [resolvePlaylistAndAdd, hfound hfind, hA, hB, jsTruthyStr]

/-- Witness for C7: an account owning only "Chill" — resolving "Road Trip"
finds nothing; with `createIfMissing` defaulted the handler creates
"Road Trip" and answers ok with the created id; with `createIfMissing:
false` it answers 404 Playlist not found. -/
theorem playlistAdd_resolution_witness :
    (findPlaylistIdByName "u1" "Road Trip" [⟨"p1", "Chill"⟩] 0).1
      = (([⟨"p1", "Chill"⟩] : List Playlist).find?
          (playlistNameMatches "Road Trip")).map Playlist.id
    ∧ createPlaylistCall "u1" "Road Trip" "Created by GPT Bridge" false
        ∈ (playlistAddHandler ⟨some "Road Trip", none, some "spotify:track:x", none⟩
            ⟨200, "u1", [], 200, [⟨"p1", "Chill"⟩], 201, "newPL", 201, Json.null⟩).2
    ∧ (playlistAddHandler ⟨some "Road Trip", none, some "spotify:track:x", none⟩
        ⟨200, "u1", [], 200, [⟨"p1", "Chill"⟩], 201, "newPL", 201, Json.null⟩).1
        = ⟨200, Json.obj [("ok", Json.bool true), ("playlistId", Json.str "newPL"),
                          ("added", Json.str "spotify:track:x")]⟩
    ∧ playlistAddHandler ⟨some "Road Trip", none, some "spotify:track:x", some false⟩
        ⟨200, "u1", [], 200, [⟨"p1", "Chill"⟩], 201, "newPL", 201, Json.null⟩
        = (playlistNotFoundResponse,
           [meCall] ++ (findPlaylistIdByName "u1" "Road Trip" [⟨"p1", "Chill"⟩] 0).2) := by
  have h1 := playlistAdd_resolution "u1" "Road Trip" "spotify:track:x"
    [⟨"p1", "Chill"⟩] 0 ⟨some "Road Trip", none, some "spotify:track:x", none⟩
    ⟨200, "u1", [], 200, [⟨"p1", "Chill"⟩], 201, "newPL", 201, Json.null⟩
    rfl (by decide) rfl (by decide) (by decide) (by decide)
  have h2 := playlistAdd_resolution "u1" "Road Trip" "spotify:track:x"
    [⟨"p1", "Chill"⟩] 0 ⟨some "Road Trip", none, some "spotify:track:x", some false⟩
    ⟨200, "u1", [], 200, [⟨"p1", "Chill"⟩], 201, "newPL", 201, Json.null⟩
    rfl (by decide) rfl (by decide) (by decide) (by decide)
  exact ⟨h1.1, (h1.2.1 (by decide) rfl).1,
         (h1.2.1 (by decide) rfl).2 (by decide) (by decide) (by decide),
         h2.2.2 (by decide) rfl⟩

end Bridge
